import Mathlib

/-!
Verification of the address-verdict logic of the validate-address tool
(src/server.ts, processing block at lines 149-180).

JavaScript strings are modelled as lists of characters (`JsString`); the
string methods used by the source (`trim`, `toUpperCase`) are modelled
directly on such lists.  The decision logic is embedded twice:

* `validateAddressFeedback` / `evaluate` work on the parsed
  `VerificationOutcome` sum type, producing the feedback string,
  respectively the verdict it renders;
* `processValidationData` works on a raw response record whose fields may
  all be absent, with `none` as result modelling the TypeError that the
  surrounding try/catch block of the tool would have to catch.
-/

/-- Character-list model of the untyped JavaScript strings handled by the server. -/
abbrev JsString := List Char

/-- Model of the trim method of JavaScript strings: drop whitespace from both ends, nothing else. -/
def jsTrim (s : JsString) : JsString :=
  ((s.dropWhile Char.isWhitespace).reverse.dropWhile Char.isWhitespace).reverse

/-- Model of the toUpperCase method of JavaScript strings, mapping each character to upper case. -/
def jsToUpperCase (s : JsString) : JsString :=
  s.map Char.toUpper

/-- Street normalization performed at server.ts lines 156-157 before the comparison:
trim leading and trailing whitespace, then uppercase. -/
def normalizeStreet (s : JsString) : JsString :=
  jsToUpperCase (jsTrim s)

/-- Fields of the validate-address tool call (server.ts lines 96-101). -/
structure SubmittedAddress where
  streetAddress : JsString
  city : JsString
  state : JsString
  zipCode : Option JsString
  deriving DecidableEq

/-- Verified address returned by the verification service when it found a match. -/
structure VerifiedAddress where
  streetAddress : JsString
  city : JsString
  state : JsString
  ZIPCode : JsString
  ZIPPlus4 : JsString
  deriving DecidableEq

/-- One entry of the errors array of an unmatched verification response. -/
structure USPSErrorEntry where
  text : JsString
  deriving DecidableEq

/-- Parsed verification response: a match carrying the verified address and the
optional DPVConfirmation code, or no match carrying the errors array. -/
inductive VerificationOutcome where
  | matched (address : VerifiedAddress) (DPVConfirmation : Option JsString)
  | unmatched (errors : List USPSErrorEntry)
  deriving DecidableEq

/-- The four verdicts of the engine (spec section 3). -/
inductive Verdict where
  | valid
  | correctedSuggestion (formattedAddress : JsString)
  | accuracySuggestion (formattedAddress : JsString)
  | invalid (reason : Option JsString)
  deriving DecidableEq

/-- Template string built at server.ts line 159 from the raw verified-address fields. -/
def suggestedAddress (a : VerifiedAddress) : JsString :=
  a.streetAddress ++ (", ").data ++ a.city ++ (", ").data ++ a.state ++
    (" ").data ++ a.ZIPCode ++ ("-").data ++ a.ZIPPlus4

/-- Feedback string computed by the processing block at server.ts lines 149-180,
for a response already parsed into a `VerificationOutcome`. -/
def validateAddressFeedback (params : SubmittedAddress) (outcome : VerificationOutcome) :
    JsString :=
  match outcome with
  | .matched address DPVConfirmation =>
    let originalStreet := jsToUpperCase (jsTrim params.streetAddress)
    let returnedStreet := jsToUpperCase (jsTrim address.streetAddress)
    if originalStreet ≠ returnedStreet then
      ("Address was corrected. Suggested address: ").data ++ suggestedAddress address
    else if DPVConfirmation = some (['Y']) then
      ("Address is valid.").data
    else if DPVConfirmation = some (['D']) ∨ DPVConfirmation = some (['S']) then
      ("Address could be more accurate. Suggested address: ").data ++ suggestedAddress address
    else
      ("Address is invalid.").data
  | .unmatched errors =>
    match errors with
    | [] => ("Address is invalid.").data
    | e :: _ => ("Invalid Address. Reason: ").data ++ e.text

/-- Verdict-level form of the same decision procedure; `renderVerdict` maps it back
to the exact feedback strings of the source (`renderVerdict_evaluate`). -/
def evaluate (submitted : SubmittedAddress) (outcome : VerificationOutcome) : Verdict :=
  match outcome with
  | .matched address DPVConfirmation =>
    if normalizeStreet submitted.streetAddress ≠ normalizeStreet address.streetAddress then
      .correctedSuggestion (suggestedAddress address)
    else if DPVConfirmation = some (['Y']) then
      .valid
    else if DPVConfirmation = some (['D']) ∨ DPVConfirmation = some (['S']) then
      .accuracySuggestion (suggestedAddress address)
    else
      .invalid none
  | .unmatched errors =>
    match errors with
    | [] => .invalid none
    | e :: _ => .invalid (some e.text)

/-- Rendering of each verdict into the message text of the tool (spec section 6). -/
def renderVerdict : Verdict → JsString
  | .valid => ("Address is valid.").data
  | .correctedSuggestion a => ("Address was corrected. Suggested address: ").data ++ a
  | .accuracySuggestion a => ("Address could be more accurate. Suggested address: ").data ++ a
  | .invalid (some r) => ("Invalid Address. Reason: ").data ++ r
  | .invalid none => ("Address is invalid.").data

/-- Raw additionalInfo object of the verification response. -/
structure RawAdditionalInfo where
  DPVConfirmation : Option JsString
  deriving DecidableEq

/-- Raw address object of the verification response; every field may be absent. -/
structure RawVerifiedAddress where
  streetAddress : Option JsString
  city : Option JsString
  state : Option JsString
  ZIPCode : Option JsString
  ZIPPlus4 : Option JsString
  deriving DecidableEq

/-- Raw verification response as the JSON body parsed at server.ts line 147. -/
structure RawValidationData where
  address : Option RawVerifiedAddress
  additionalInfo : Option RawAdditionalInfo
  errors : Option (List USPSErrorEntry)
  deriving DecidableEq

/-- JavaScript template interpolation of a possibly-undefined value. -/
def jsInterp (v : Option JsString) : JsString :=
  match v with
  | some s => s
  | none => ("undefined").data

/-- Raw-response form of the processing block (server.ts lines 149-180).  A `none`
result models the TypeError thrown when address.streetAddress is undefined at
line 157 — the only raw field on which the block calls a method; every other
absent field is interpolated as the text undefined, and an absent
additionalInfo object is defaulted to an empty one at line 153. -/
def processValidationData (params : SubmittedAddress) (validationData : RawValidationData) :
    Option JsString :=
  match validationData.address with
  | some address =>
    match address.streetAddress with
    | none => none
    | some vstreet =>
      let DPVConfirmation := (validationData.additionalInfo.getD ⟨none⟩).DPVConfirmation
      let originalStreet := jsToUpperCase (jsTrim params.streetAddress)
      let returnedStreet := jsToUpperCase (jsTrim vstreet)
      let sugg := vstreet ++ (", ").data ++ jsInterp address.city ++ (", ").data ++
        jsInterp address.state ++ (" ").data ++ jsInterp address.ZIPCode ++ ("-").data ++
        jsInterp address.ZIPPlus4
      if originalStreet ≠ returnedStreet then
        some (("Address was corrected. Suggested address: ").data ++ sugg)
      else if DPVConfirmation = some (['Y']) then
        some (("Address is valid.").data)
      else if DPVConfirmation = some (['D']) ∨ DPVConfirmation = some (['S']) then
        some (("Address could be more accurate. Suggested address: ").data ++ sugg)
      else
        some (("Address is invalid.").data)
  | none =>
    match validationData.errors with
    | some (e :: _) => some (("Invalid Address. Reason: ").data ++ e.text)
    | _ => some (("Address is invalid.").data)

/-- Well-formedness of a raw response per the spec precondition: either no match
at all, or a match carrying all required verified-address fields. -/
def wellFormedResponse (d : RawValidationData) : Bool :=
  match d.address with
  | none => true
  | some a =>
    a.streetAddress.isSome && a.city.isSome && a.state.isSome &&
      a.ZIPCode.isSome && a.ZIPPlus4.isSome

/-- Abstraction of a well-formed raw response into the parsed outcome. -/
def toOutcome (d : RawValidationData) : VerificationOutcome :=
  match d.address with
  | some a =>
    .matched
      ⟨a.streetAddress.getD [], a.city.getD [], a.state.getD [],
        a.ZIPCode.getD [], a.ZIPPlus4.getD []⟩
      ((d.additionalInfo.getD ⟨none⟩).DPVConfirmation)
  | none => .unmatched (d.errors.getD [])

/-- Uppercasing a character neither creates nor destroys whitespace. -/
theorem isWhitespace_toUpper (c : Char) :
    (Char.toUpper c).isWhitespace = c.isWhitespace := by
  have ht : Char.toUpper c =
      if 97 ≤ c.toNat ∧ c.toNat ≤ 122 then Char.ofNat (c.toNat - 32) else c := rfl
  by_cases h : 97 ≤ c.toNat ∧ c.toNat ≤ 122
  · obtain ⟨h1, h2⟩ := h
    obtain ⟨n, hn⟩ : ∃ n, c.toNat = n := ⟨c.toNat, rfl⟩
    rw [hn] at h1 h2
    have hv : Char.ofNat n = c := by rw [← hn]; exact Char.ofNat_toNat c
    subst hv
    interval_cases n <;> decide
  · rw [ht, if_neg h]

/-- Dropping while a predicate holds of every element empties the list. -/
theorem dropWhile_eq_nil_of_all {p : Char → Bool} {l : JsString}
    (h : ∀ c ∈ l, p c = true) : l.dropWhile p = [] :=
  List.dropWhile_eq_nil_iff.mpr h

/-- DropWhile over an append whose left part does not vanish keeps the right part intact. -/
theorem dropWhile_append_of_ne_nil {p : Char → Bool} {l₁ l₂ : JsString}
    (h : l₁.dropWhile p ≠ []) :
    (l₁ ++ l₂).dropWhile p = l₁.dropWhile p ++ l₂ := by
  induction l₁ with
  | nil => simp at h
  | cons c t ih =>
    rw [List.cons_append, List.dropWhile_cons]
    rw [List.dropWhile_cons] at h
    by_cases hp : p c = true
    · rw [if_pos hp]
      rw [if_pos hp] at h
      rw [List.dropWhile_cons, if_pos hp]
      exact ih h
    · rw [if_neg hp]
      rw [if_neg hp] at h
      rw [List.dropWhile_cons, if_neg hp, List.cons_append]

/-- Leading whitespace is invisible to jsTrim. -/
theorem jsTrim_append_ws_left {w s : JsString} (h : ∀ c ∈ w, c.isWhitespace = true) :
    jsTrim (w ++ s) = jsTrim s := by
  unfold jsTrim
  rw [List.dropWhile_append_of_pos h]

/-- Trailing whitespace is invisible to jsTrim. -/
theorem jsTrim_append_ws_right {s w : JsString} (h : ∀ c ∈ w, c.isWhitespace = true) :
    jsTrim (s ++ w) = jsTrim s := by
  unfold jsTrim
  by_cases hd : s.dropWhile Char.isWhitespace = []
  · have hs := List.dropWhile_eq_nil_iff.mp hd
    have h2 : (s ++ w).dropWhile Char.isWhitespace = [] := by
      refine dropWhile_eq_nil_of_all ?_
      intro c hc
      rcases List.mem_append.mp hc with hc | hc
      · exact hs c hc
      · exact h c hc
    rw [hd, h2]
  · rw [dropWhile_append_of_ne_nil hd, List.reverse_append,
      List.dropWhile_append_of_pos fun c hc => h c (List.mem_reverse.mp hc)]

/-- Whitespace padding on either side is invisible to jsTrim. -/
theorem jsTrim_pad {w₁ s w₂ : JsString} (h1 : ∀ c ∈ w₁, c.isWhitespace = true)
    (h2 : ∀ c ∈ w₂, c.isWhitespace = true) :
    jsTrim (w₁ ++ s ++ w₂) = jsTrim s := by
  rw [jsTrim_append_ws_right h2, jsTrim_append_ws_left h1]

/-- DropWhile on whitespace commutes with uppercasing. -/
theorem dropWhile_ws_map_toUpper (l : JsString) :
    (l.map Char.toUpper).dropWhile Char.isWhitespace =
      (l.dropWhile Char.isWhitespace).map Char.toUpper := by
  rw [List.dropWhile_map]
  have hp : (Char.isWhitespace ∘ Char.toUpper) = Char.isWhitespace := by
    funext c
    exact isWhitespace_toUpper c
  rw [hp]

/-- Trimming commutes with uppercasing. -/
theorem jsTrim_jsToUpperCase (l : JsString) :
    jsTrim (jsToUpperCase l) = jsToUpperCase (jsTrim l) := by
  unfold jsTrim jsToUpperCase
  rw [dropWhile_ws_map_toUpper, ← List.map_reverse, dropWhile_ws_map_toUpper,
    ← List.map_reverse]

/-- Normalization identifies strings whose cores agree up to case under whitespace padding. -/
theorem normalizeStreet_pad_case {core₁ core₂ w₁ w₂ w₃ w₄ : JsString}
    (hw₁ : ∀ c ∈ w₁, c.isWhitespace = true) (hw₂ : ∀ c ∈ w₂, c.isWhitespace = true)
    (hw₃ : ∀ c ∈ w₃, c.isWhitespace = true) (hw₄ : ∀ c ∈ w₄, c.isWhitespace = true)
    (hcase : jsToUpperCase core₁ = jsToUpperCase core₂) :
    normalizeStreet (w₁ ++ core₁ ++ w₂) = normalizeStreet (w₃ ++ core₂ ++ w₄) := by
  unfold normalizeStreet
  rw [jsTrim_pad hw₁ hw₂, jsTrim_pad hw₃ hw₄, ← jsTrim_jsToUpperCase,
    ← jsTrim_jsToUpperCase, hcase]

/-- Rendering the verdict of `evaluate` recovers exactly the feedback string of the source. -/
theorem renderVerdict_evaluate (s : SubmittedAddress) (o : VerificationOutcome) :
    renderVerdict (evaluate s o) = validateAddressFeedback s o := by
  cases o with
  | matched a d =>
    simp only [evaluate, validateAddressFeedback, normalizeStreet]
    split
    · rfl
    · split
      · rfl
      · split
        · rfl
        · rfl
  | unmatched errs => cases errs <;> rfl

/-- C1: for every matched outcome in which the normalized submitted street differs from
the normalized verified street, the verdict is CorrectedSuggestion carrying the formatted
verified address, regardless of the confirmation code — even when it is Confirmed. -/
theorem street_mismatch_forces_correction (s : SubmittedAddress) (a : VerifiedAddress)
    (code : Option JsString)
    (h : normalizeStreet s.streetAddress ≠ normalizeStreet a.streetAddress) :
    evaluate s (.matched a code) = .correctedSuggestion (suggestedAddress a) := by
  simp only [evaluate]
  rw [if_pos h]

/-- Witness for C1, with the code Confirmed. -/
theorem street_mismatch_forces_correction_witness :
    evaluate ⟨("123 Main Street").data, ("Springfield").data, ("IL").data, none⟩
      (.matched ⟨("123 Main St").data, ("Springfield").data, ("IL").data,
        ("62704").data, ("1234").data⟩ (some (['Y']))) =
      .correctedSuggestion (("123 Main St, Springfield, IL 62704-1234").data) := by
  rw [street_mismatch_forces_correction _ _ _ (by decide)]
  decide

/-- C2: every Unmatched outcome yields an Invalid verdict, carrying the first error
entry's text verbatim when present and no reason (the generic message) otherwise. -/
theorem unmatched_yields_invalid (s : SubmittedAddress) (errors : List USPSErrorEntry) :
    evaluate s (.unmatched errors) = .invalid (errors.head?.map USPSErrorEntry.text) := by
  cases errors <;> rfl

/-- Witness for C2 at a concrete error list. -/
theorem unmatched_yields_invalid_witness :
    evaluate ⟨("1 A St").data, ("X").data, ("TX").data, none⟩
      (.unmatched [⟨("Address Not Found.").data⟩]) =
      .invalid (some (("Address Not Found.").data)) := by
  rw [unmatched_yields_invalid]
  decide

/-- C3: a matched outcome with equal normalized streets and the code Confirmed yields
Valid; in particular case or outer-whitespace differences of the street still yield Valid. -/
theorem confirmed_match_valid (s : SubmittedAddress) (a : VerifiedAddress)
    (h : normalizeStreet s.streetAddress = normalizeStreet a.streetAddress) :
    evaluate s (.matched a (some (['Y']))) = .valid := by
  simp [evaluate, h]

/-- Witness for C3 at streets differing only in case and outer whitespace. -/
theorem confirmed_match_valid_witness :
    evaluate ⟨("  123 Main St ").data, ("Springfield").data, ("IL").data,
        some (("62704").data)⟩
      (.matched ⟨("123 MAIN ST").data, ("SPRINGFIELD").data, ("IL").data,
        ("62704").data, ("1234").data⟩ (some (['Y']))) = .valid :=
  confirmed_match_valid _ _ (by decide)

/-- C4: a matched outcome with equal normalized streets and the code SecondaryMissing or
SecondaryInvalid yields AccuracySuggestion whose formatted address is the verified street,
city, state, zip and zip extension in the exact template of server.ts line 159. -/
theorem secondary_code_accuracy_suggestion (s : SubmittedAddress) (a : VerifiedAddress)
    (code : JsString)
    (h : normalizeStreet s.streetAddress = normalizeStreet a.streetAddress)
    (hcode : code = ['D'] ∨ code = ['S']) :
    evaluate s (.matched a (some code)) =
      .accuracySuggestion (a.streetAddress ++ (", ").data ++ a.city ++ (", ").data ++
        a.state ++ (" ").data ++ a.ZIPCode ++ ("-").data ++ a.ZIPPlus4) := by
  have hy : ¬ (some code = some (['Y'])) := by
    rcases hcode with rfl | rfl <;> decide
  have hds : some code = some (['D']) ∨ some code = some (['S']) := by
    rcases hcode with rfl | rfl
    · exact Or.inl rfl
    · exact Or.inr rfl
  simp only [evaluate]
  rw [if_neg (fun hn => hn h), if_neg hy, if_pos hds]
  rfl

/-- Witness for C4 at the example of the spec. -/
theorem secondary_code_accuracy_suggestion_witness :
    evaluate ⟨("123 Main St").data, ("Springfield").data, ("IL").data, none⟩
      (.matched ⟨("123 MAIN ST").data, ("Springfield").data, ("IL").data,
        ("62704").data, ("1234").data⟩ (some (['D']))) =
      .accuracySuggestion (("123 MAIN ST, Springfield, IL 62704-1234").data) := by
  rw [secondary_code_accuracy_suggestion _ _ _ (by decide) (Or.inl rfl)]
  decide

/-- C5: a matched outcome with equal normalized streets and any code other than
Confirmed, SecondaryMissing or SecondaryInvalid yields the generic Invalid verdict and
never Valid. -/
theorem indeterminate_code_invalid (s : SubmittedAddress) (a : VerifiedAddress)
    (code : Option JsString)
    (h : normalizeStreet s.streetAddress = normalizeStreet a.streetAddress)
    (hY : code ≠ some (['Y'])) (hD : code ≠ some (['D'])) (hS : code ≠ some (['S'])) :
    evaluate s (.matched a code) = .invalid none ∧
      evaluate s (.matched a code) ≠ .valid := by
  have hDS : ¬ (code = some (['D']) ∨ code = some (['S'])) := by
    rintro (hc | hc)
    · exact hD hc
    · exact hS hc
  have he : evaluate s (.matched a code) = .invalid none := by
    simp only [evaluate]
    rw [if_neg (fun hn => hn h), if_neg hY, if_neg hDS]
  refine ⟨he, ?_⟩
  rw [he]
  exact fun hc => Verdict.noConfusion hc

/-- Witness for C5 at the NoMatch code. -/
theorem indeterminate_code_invalid_witness :
    evaluate ⟨("123 Main St").data, ("Springfield").data, ("IL").data, none⟩
        (.matched ⟨("123 MAIN ST").data, ("Springfield").data, ("IL").data,
          ("62704").data, ("1234").data⟩ (some (['N']))) = .invalid none ∧
      evaluate ⟨("123 Main St").data, ("Springfield").data, ("IL").data, none⟩
        (.matched ⟨("123 MAIN ST").data, ("Springfield").data, ("IL").data,
          ("62704").data, ("1234").data⟩ (some (['N']))) ≠ .valid :=
  indeterminate_code_invalid _ _ _ (by decide) (by decide) (by decide) (by decide)

/-- C6: the street comparison normalizes by exactly trimming outer whitespace and
uppercasing, and nothing else: streets equal up to case and leading or trailing
whitespace are judged equal, while internal whitespace or punctuation differences are
judged unequal and trigger CorrectedSuggestion even under a Confirmed code. -/
theorem street_normalization_exact :
    (∀ core₁ core₂ w₁ w₂ w₃ w₄ : JsString,
        (∀ c ∈ w₁, c.isWhitespace = true) → (∀ c ∈ w₂, c.isWhitespace = true) →
        (∀ c ∈ w₃, c.isWhitespace = true) → (∀ c ∈ w₄, c.isWhitespace = true) →
        jsToUpperCase core₁ = jsToUpperCase core₂ →
        normalizeStreet (w₁ ++ core₁ ++ w₂) = normalizeStreet (w₃ ++ core₂ ++ w₄)) ∧
    normalizeStreet (("123 Main Street").data) ≠ normalizeStreet (("123 Main St").data) ∧
    normalizeStreet (("123  Main St").data) ≠ normalizeStreet (("123 Main St").data) ∧
    (∀ (s : SubmittedAddress) (a : VerifiedAddress),
        s.streetAddress = ("123 Main Street").data →
        a.streetAddress = ("123 Main St").data →
        evaluate s (.matched a (some (['Y']))) =
          .correctedSuggestion (suggestedAddress a)) := by
  refine ⟨fun c1 c2 w1 w2 w3 w4 h1 h2 h3 h4 hc =>
    normalizeStreet_pad_case h1 h2 h3 h4 hc, by decide, by decide, ?_⟩
  intro s a hs ha
  have h : normalizeStreet s.streetAddress ≠ normalizeStreet a.streetAddress := by
    rw [hs, ha]
    decide
  simp only [evaluate]
  rw [if_pos h]

/-- Witness for C6: padding and lowercasing leave the judgment equal, the abbreviated
street is judged unequal. -/
theorem street_normalization_exact_witness :
    normalizeStreet ((" ").data ++ ("123 main st").data ++ ("  ").data) =
      normalizeStreet (([] : JsString) ++ ("123 MAIN ST").data ++ ([] : JsString)) ∧
    normalizeStreet (("123 Main Street").data) ≠ normalizeStreet (("123 Main St").data) :=
  ⟨street_normalization_exact.1 (("123 main st").data) (("123 MAIN ST").data)
      ((" ").data) (("  ").data) [] [] (by decide) (by decide) (by decide) (by decide)
      (by decide),
    street_normalization_exact.2.1⟩

/-- Bridge: on a matched raw response with all fields present, the raw processing block
returns exactly the feedback of the parsed outcome. -/
theorem processValidationData_matched (s : SubmittedAddress) (st c stt z z4 : JsString)
    (info : Option RawAdditionalInfo) (errs : Option (List USPSErrorEntry)) :
    processValidationData s ⟨some ⟨some st, some c, some stt, some z, some z4⟩, info, errs⟩ =
      some (validateAddressFeedback s
        (.matched ⟨st, c, stt, z, z4⟩ ((info.getD ⟨none⟩).DPVConfirmation))) := by
  simp only [processValidationData, validateAddressFeedback, suggestedAddress, jsInterp]
  split_ifs <;> rfl

/-- C7: on every well-formed raw response — no match at all, or a match carrying all
required verified-address fields — the processing block returns a defined feedback,
namely the rendering of the verdict of the parsed outcome, and that verdict is one of
the four variants; the surrounding error branch is unreachable. -/
theorem evaluate_total (s : SubmittedAddress) (d : RawValidationData)
    (h : wellFormedResponse d = true) :
    processValidationData s d = some (renderVerdict (evaluate s (toOutcome d))) ∧
    (evaluate s (toOutcome d) = Verdict.valid ∨
      (∃ f, evaluate s (toOutcome d) = Verdict.correctedSuggestion f) ∨
      (∃ f, evaluate s (toOutcome d) = Verdict.accuracySuggestion f) ∨
      (∃ r, evaluate s (toOutcome d) = Verdict.invalid r)) := by
  constructor
  · obtain ⟨addr, info, errs⟩ := d
    cases addr with
    | none =>
      rw [renderVerdict_evaluate]
      cases errs with
      | none => rfl
      | some l => cases l <;> rfl
    | some a =>
      obtain ⟨sa, ca, sta, za, z4a⟩ := a
      simp only [wellFormedResponse, Bool.and_eq_true, Option.isSome_iff_exists] at h
      obtain ⟨⟨⟨⟨⟨st, hst⟩, ⟨c, hc⟩⟩, ⟨stt, hstt⟩⟩, ⟨z, hz⟩⟩, ⟨z4, hz4⟩⟩ := h
      subst hst
      subst hc
      subst hstt
      subst hz
      subst hz4
      rw [renderVerdict_evaluate, processValidationData_matched s st c stt z z4 info errs]
      rfl
  · cases hv : evaluate s (toOutcome d) with
    | valid => exact Or.inl rfl
    | correctedSuggestion f => exact Or.inr (Or.inl ⟨f, rfl⟩)
    | accuracySuggestion f => exact Or.inr (Or.inr (Or.inl ⟨f, rfl⟩))
    | invalid r => exact Or.inr (Or.inr (Or.inr ⟨r, rfl⟩))

/-- Witness for C7 at a fully populated matched response. -/
theorem evaluate_total_witness :
    processValidationData ⟨("123 Main St").data, ("Springfield").data, ("IL").data, none⟩
        ⟨some ⟨some (("123 MAIN ST").data), some (("Springfield").data),
            some (("IL").data), some (("62704").data), some (("1234").data)⟩,
          some ⟨some (['Y'])⟩, none⟩ =
      some (renderVerdict (evaluate
        ⟨("123 Main St").data, ("Springfield").data, ("IL").data, none⟩
        (toOutcome ⟨some ⟨some (("123 MAIN ST").data), some (("Springfield").data),
            some (("IL").data), some (("62704").data), some (("1234").data)⟩,
          some ⟨some (['Y'])⟩, none⟩))) :=
  (evaluate_total _ _ (by decide)).1

/-- C8: evaluation is deterministic — identical inputs yield identical verdicts and
identical feedback text. -/
theorem evaluate_deterministic (s₁ s₂ : SubmittedAddress) (o₁ o₂ : VerificationOutcome)
    (hs : s₁ = s₂) (ho : o₁ = o₂) :
    evaluate s₁ o₁ = evaluate s₂ o₂ ∧
      validateAddressFeedback s₁ o₁ = validateAddressFeedback s₂ o₂ := by
  subst hs
  subst ho
  exact ⟨rfl, rfl⟩

/-- Witness for C8 at a concrete repeated input. -/
theorem evaluate_deterministic_witness :
    evaluate ⟨("1 A St").data, ("X").data, ("TX").data, none⟩ (.unmatched []) =
        evaluate ⟨("1 A St").data, ("X").data, ("TX").data, none⟩ (.unmatched []) ∧
      validateAddressFeedback ⟨("1 A St").data, ("X").data, ("TX").data, none⟩
          (.unmatched []) =
        validateAddressFeedback ⟨("1 A St").data, ("X").data, ("TX").data, none⟩
          (.unmatched []) :=
  evaluate_deterministic _ _ _ _ rfl rfl

/-- C9: a matched raw response with no additionalInfo object at all and equal normalized
streets still produces the defined generic Invalid feedback rather than a thrown error,
and is handled identically to any unrecognized confirmation code. -/
theorem absent_confirmation_generic_invalid (s : SubmittedAddress)
    (ra : RawVerifiedAddress) (vstreet : JsString) (errs : Option (List USPSErrorEntry))
    (hstreet : ra.streetAddress = some vstreet)
    (h : normalizeStreet s.streetAddress = normalizeStreet vstreet) :
    processValidationData s ⟨some ra, none, errs⟩ = some (("Address is invalid.").data) ∧
    (∀ code : JsString, code ≠ ['Y'] → code ≠ ['D'] → code ≠ ['S'] →
      processValidationData s ⟨some ra, none, errs⟩ =
        processValidationData s ⟨some ra, some ⟨some code⟩, errs⟩) := by
  simp only [normalizeStreet, jsToUpperCase] at h
  obtain ⟨osa, oc, ost, oz, oz4⟩ := ra
  simp only at hstreet
  subst hstreet
  have h1 : processValidationData s ⟨some ⟨some vstreet, oc, ost, oz, oz4⟩, none, errs⟩ =
      some (("Address is invalid.").data) := by
    simp only [processValidationData]
    rw [if_neg (fun hn => hn h), if_neg (by decide), if_neg (by decide)]
  refine ⟨h1, ?_⟩
  intro code hY hD hS
  rw [h1]
  have hy : ¬ ((some (RawAdditionalInfo.mk (some code))).getD
      ⟨none⟩).DPVConfirmation = some (['Y']) := by
    intro hc
    exact hY (Option.some.inj hc)
  have hds : ¬ (((some (RawAdditionalInfo.mk (some code))).getD
        ⟨none⟩).DPVConfirmation = some (['D']) ∨
      ((some (RawAdditionalInfo.mk (some code))).getD
        ⟨none⟩).DPVConfirmation = some (['S'])) := by
    rintro (hc | hc)
    · exact hD (Option.some.inj hc)
    · exact hS (Option.some.inj hc)
  simp only [processValidationData]
  rw [if_neg (fun hn => hn h), if_neg hy, if_neg hds]

/-- Witness for C9 at a concrete matched response without additionalInfo. -/
theorem absent_confirmation_generic_invalid_witness :
    processValidationData ⟨("123 Main St").data, ("S").data, ("IL").data, none⟩
        ⟨some ⟨some (("123 MAIN ST").data), some (("S").data), some (("IL").data),
          some (("62704").data), some (("1234").data)⟩, none, none⟩ =
      some (("Address is invalid.").data) :=
  (absent_confirmation_generic_invalid _ _ _ _ rfl (by decide)).1

/-- C10: normalization never reaches the output — every suggestion verdict carries the
formatted address built verbatim from the verified fields as received, with the original
case and whitespace of the verified street, never from the normalized strings. -/
theorem suggestion_uses_raw_fields (s : SubmittedAddress) (o : VerificationOutcome)
    (f : JsString)
    (h : evaluate s o = .correctedSuggestion f ∨ evaluate s o = .accuracySuggestion f) :
    ∃ a code, o = .matched a code ∧
      f = a.streetAddress ++ (", ").data ++ a.city ++ (", ").data ++ a.state ++
        (" ").data ++ a.ZIPCode ++ ("-").data ++ a.ZIPPlus4 := by
  cases o with
  | unmatched errs =>
    exfalso
    cases errs with
    | nil => rcases h with h | h <;> exact Verdict.noConfusion h
    | cons e t => rcases h with h | h <;> exact Verdict.noConfusion h
  | matched a code =>
    refine ⟨a, code, rfl, ?_⟩
    by_cases hs : normalizeStreet s.streetAddress ≠ normalizeStreet a.streetAddress
    · have he : evaluate s (.matched a code) =
          .correctedSuggestion (suggestedAddress a) := by
        simp only [evaluate]
        rw [if_pos hs]
      rcases h with h | h
      · rw [he] at h
        injection h with hf
        rw [← hf]
        rfl
      · rw [he] at h
        exact Verdict.noConfusion h
    · by_cases hy : code = some (['Y'])
      · have he : evaluate s (.matched a code) = .valid := by
          simp only [evaluate]
          rw [if_neg hs, if_pos hy]
        rcases h with h | h <;> rw [he] at h <;> exact Verdict.noConfusion h
      · by_cases hds : code = some (['D']) ∨ code = some (['S'])
        · have he : evaluate s (.matched a code) =
              .accuracySuggestion (suggestedAddress a) := by
            simp only [evaluate]
            rw [if_neg hs, if_neg hy, if_pos hds]
          rcases h with h | h
          · rw [he] at h
            exact Verdict.noConfusion h
          · rw [he] at h
            injection h with hf
            rw [← hf]
            rfl
        · have he : evaluate s (.matched a code) = .invalid none := by
            simp only [evaluate]
            rw [if_neg hs, if_neg hy, if_neg hds]
          rcases h with h | h <;> rw [he] at h <;> exact Verdict.noConfusion h

/-- Witness for C10: a verified street submitted in different case and with leading
whitespace appears verbatim in the suggested address. -/
theorem suggestion_uses_raw_fields_witness :
    ∃ a code,
      (VerificationOutcome.matched
          ⟨("  123 main st").data, ("Springfield").data, ("IL").data, ("62704").data,
            ("1234").data⟩ (some (['D']))) = .matched a code ∧
      ("  123 main st, Springfield, IL 62704-1234").data =
        a.streetAddress ++ (", ").data ++ a.city ++ (", ").data ++ a.state ++
          (" ").data ++ a.ZIPCode ++ ("-").data ++ a.ZIPPlus4 :=
  suggestion_uses_raw_fields
    ⟨("123 MAIN ST").data, ("Springfield").data, ("IL").data, none⟩ _ _
    (Or.inr (by decide))
